import Mathlib

/-!
Verification of the scheduling and execution engine of the
`scheduled-tasks-telegram-bot` repository, as a shallow embedding of the
Python sources (`src/scheduled_bot/models.py`, `storage.py`, `scheduler.py`,
`formatting.py`, `openai_client.py`) into Lean.

Conventions:
* Python `str` values that the claims reason about character-by-character are
  embedded as `List Char` (obtained from Lean string literals via `.data`);
  strings only compared for equality stay `String`.
* Python `int` is embedded as `Int` (`Nat` where the source value is a count).
* Python exceptions are `Except` errors; the distinct exception classes that
  the claims distinguish are the constructors of `PyErr`.
* External libraries (the `datetime` ISO parser, the tzdata zone database,
  the OpenAI client, the Telegram `Bot`) enter as explicit function
  parameters describing their observable behaviour at the call sites.
-/

/-- Equality of `Except` values is decidable; used to evaluate the embedded
operations (which return `Except`) on concrete inputs. -/
instance {ε α : Type _} [DecidableEq ε] [DecidableEq α] : DecidableEq (Except ε α)
  | .ok a, .ok b =>
    if h : a = b then .isTrue (h ▸ rfl)
    else .isFalse (fun he => h (Except.ok.inj he))
  | .ok _, .error _ => .isFalse (fun he => Except.noConfusion he)
  | .error _, .ok _ => .isFalse (fun he => Except.noConfusion he)
  | .error a, .error b =>
    if h : a = b then .isTrue (h ▸ rfl)
    else .isFalse (fun he => h (Except.error.inj he))

namespace ScheduledBot

/-! ## formatting.py -/

/-- One character of `html.escape` (quote=True).  `html.escape` applies the
textual replacements `& → &amp;`, `< → &lt;`, `> → &gt;`, `" → &quot;`,
`' → &#x27;` in that order; since no replacement output contains a character
replaced by a later pass that has not already been processed, the sequential
`str.replace` passes are equivalent to this single character-wise map.
(The apostrophe is matched by its code point 39 and `&#x27;` is spelled with
an escape to keep the file free of quote characters inside literals.) -/
def escChar (c : Char) : List Char :=
  if c = '&' then "&amp;".data
  else if c = '<' then "&lt;".data
  else if c = '>' then "&gt;".data
  else if c = '"' then "&quot;".data
  else if c.toNat = 39 then ("&#x27".data ++ [';'])
  else [c]

/-- `formatting.escape_html`: `html.escape(text)` with default `quote=True`. -/
def escape_html (text : List Char) : List Char :=
  text.flatMap escChar

/-- Python slicing `l[:k]` for an arbitrary `Int` bound `k`: a negative bound
counts from the end of the sequence (clamped at zero). -/
def pySliceTo (l : List Char) (k : Int) : List Char :=
  if k < 0 then l.take ((l.length + k).toNat) else l.take k.toNat

/-- The default truncation suffix of `clamp_message` (`" …[truncated]"`). -/
def truncSuffix : List Char := " …[truncated]".data

/-- `formatting.clamp_message`: truncate `text` to `max_chars` characters,
appending `suffix` when truncation happens; when `max_chars` does not even
cover the suffix, return `suffix[:max_chars]`.  The leading `text = str(text)`
of the source is the identity on strings and is dropped. -/
def clamp_message (text : List Char) (max_chars : Int) (suffix : List Char) : List Char :=
  if (text.length : Int) ≤ max_chars then text
  else if max_chars ≤ (suffix.length : Int) then pySliceTo suffix max_chars
  else pySliceTo text (max_chars - suffix.length) ++ suffix

/-! ### Claim C9 -/

/-- Claim C9, counterexample.  The claim quantifies over *every* `max_chars`,
but for the negative value `-5` (Python `int` admits negatives and a negative
slice bound counts from the end), `clamp_message "abc" (-5)` returns the first
`13 - 5 = 8` characters of the 13-character default suffix, which exceeds
`max (length "abc") (-5) = 3`, refuting the claimed bound (and the claimed
"prefix of the suffix of length `max_chars`" shape). -/
theorem C9_counterexample :
    ¬ (((clamp_message "abc".data (-5) truncSuffix).length : Int)
        ≤ max (("abc".data).length : Int) (-5)) := by
  decide

/-- Claim C9 as amended: the stated description of `clamp_message` is correct
for every *non-negative* `max_chars` (the claim as written fails for negative
bounds, see the counterexample): the text is returned unchanged when it fits;
otherwise the result has length at most `max_chars`, ends with the suffix when
`max_chars` exceeds the suffix length, and is the length-`max_chars` prefix of
the suffix otherwise; in all cases the result never exceeds
`max (length text) max_chars` characters. -/
theorem C9_clamp_message_bounds (text suffix : List Char) (max_chars : Int)
    (hnn : 0 ≤ max_chars) :
    ((text.length : Int) ≤ max_chars → clamp_message text max_chars suffix = text)
    ∧ (max_chars < (text.length : Int) →
        ((clamp_message text max_chars suffix).length : Int) ≤ max_chars
        ∧ ((suffix.length : Int) < max_chars →
            clamp_message text max_chars suffix
              = text.take (max_chars - suffix.length).toNat ++ suffix
            ∧ suffix <:+ clamp_message text max_chars suffix)
        ∧ (max_chars ≤ (suffix.length : Int) →
            clamp_message text max_chars suffix = suffix.take max_chars.toNat
            ∧ ((clamp_message text max_chars suffix).length : Int) = max_chars))
    ∧ ((clamp_message text max_chars suffix).length : Int)
        ≤ max (text.length : Int) max_chars := by
  have hfit : ∀ h : (text.length : Int) ≤ max_chars,
      clamp_message text max_chars suffix = text := by
    intro h; simp [clamp_message, h]
  refine ⟨hfit, ?_, ?_⟩
  · intro hlong
    have hnotfit : ¬ (text.length : Int) ≤ max_chars := by omega
    by_cases hsuf : max_chars ≤ (suffix.length : Int)
    · have heq : clamp_message text max_chars suffix = suffix.take max_chars.toNat := by
        simp [clamp_message, hnotfit, hsuf, pySliceTo, not_lt.mpr hnn]
      have hlen : ((clamp_message text max_chars suffix).length : Int) = max_chars := by
        rw [heq]
        simp only [List.length_take]
        omega
      exact ⟨by omega, fun h => absurd hsuf (by omega), fun _ => ⟨heq, hlen⟩⟩
    · have hsuf' : (suffix.length : Int) < max_chars := by omega
      have hk : ¬ (max_chars - (suffix.length : Int)) < 0 := by omega
      have heq : clamp_message text max_chars suffix
          = text.take (max_chars - suffix.length).toNat ++ suffix := by
        simp [clamp_message, hnotfit, hsuf, pySliceTo, hk]
      have hlen : ((clamp_message text max_chars suffix).length : Int) ≤ max_chars := by
        rw [heq]
        simp only [List.length_append, List.length_take]
        omega
      exact ⟨hlen, fun _ => ⟨heq, heq ▸ List.suffix_append _ _⟩,
        fun h => absurd h (by omega)⟩
  · by_cases hfits : (text.length : Int) ≤ max_chars
    · rw [hfit hfits]; exact le_max_left _ _
    · have := (by omega : max_chars < (text.length : Int))
      by_cases hsuf : max_chars ≤ (suffix.length : Int)
      · have : clamp_message text max_chars suffix = suffix.take max_chars.toNat := by
          simp [clamp_message, hfits, hsuf, pySliceTo, not_lt.mpr hnn]
        rw [this]
        simp only [List.length_take]
        omega
      · have hk : ¬ (max_chars - (suffix.length : Int)) < 0 := by omega
        have : clamp_message text max_chars suffix
            = text.take (max_chars - suffix.length).toNat ++ suffix := by
          simp [clamp_message, hfits, hsuf, pySliceTo, hk]
        rw [this]
        simp only [List.length_append, List.length_take]
        omega

/-- Witness for `C9_clamp_message_bounds` at `text = "hello world"`,
`max_chars = 5`, default suffix. -/
theorem C9_clamp_message_bounds_witness :
    (0 : Int) ≤ 5
    ∧ ((("hello world".data).length : Int) ≤ 5 →
        clamp_message "hello world".data 5 truncSuffix = "hello world".data)
    ∧ ((clamp_message "hello world".data 5 truncSuffix).length : Int)
        ≤ max (("hello world".data).length : Int) 5 :=
  ⟨by decide,
    (C9_clamp_message_bounds "hello world".data truncSuffix 5 (by decide)).1,
    (C9_clamp_message_bounds "hello world".data truncSuffix 5 (by decide)).2.2⟩

/-! ## scheduler.py — time-specification parsing -/

/-- A value of Python's `datetime.datetime`: calendar fields plus the UTC
offset of its `tzinfo` (in minutes), `none` for a naive datetime. -/
structure PyDateTime where
  year : Int
  month : Int
  day : Int
  hour : Int
  minute : Int
  second : Int
  microsecond : Int
  utcoffsetMinutes : Option Int
deriving DecidableEq, Repr

/-- The characters removed by Python `str.strip()` (ASCII whitespace,
identified by code point). -/
def isPyWs (c : Char) : Bool :=
  c.toNat = 32 || c.toNat = 9 || c.toNat = 10 || c.toNat = 13
    || c.toNat = 11 || c.toNat = 12

/-- Python `str.strip()`: drop leading and trailing whitespace. -/
def pyStrip (l : List Char) : List Char :=
  ((l.dropWhile isPyWs).reverse.dropWhile isPyWs).reverse

/-- Python `str.split(sep)` for a one-character separator: split at every
occurrence, keeping empty parts (`"".split(":") = [""]`). -/
def splitOnChar (sep : Char) : List Char → List (List Char)
  | [] => [[]]
  | c :: rest =>
    let r := splitOnChar sep rest
    if c = sep then [] :: r
    else
      match r with
      | [] => [[c]]
      | p :: ps => (c :: p) :: ps

/-- ASCII decimal digit, identified by code point (48–57). -/
def isDigitChar (c : Char) : Bool := 48 ≤ c.toNat && c.toNat ≤ 57

/-- Decimal value of a digit string (underscores already removed). -/
def digitsVal (s : List Char) : Int :=
  s.foldl (fun acc c => acc * 10 + ((c.toNat : Int) - 48)) 0

/-- The digit-group grammar of Python `int(str)`: nonempty, starts and ends
with a digit, contains only digits and underscores, and never two adjacent
underscores (underscores are digit-group separators, `int("1_2") = 12`). -/
def pyIntCoreOk (l : List Char) : Bool :=
  (match l.head? with | some c => isDigitChar c | none => false)
    && (match l.getLast? with | some c => isDigitChar c | none => false)
    && l.all (fun c => isDigitChar c || c == '_')
    && (l.zip l.tail).all (fun p => !(p.1 == '_' && p.2 == '_'))

/-- Value of a sign plus digit group accepted by `int(str)`. -/
def pyIntCore (sign : Int) (core : List Char) : Option Int :=
  if pyIntCoreOk core then
    some (sign * digitsVal (core.filter (fun c => !(c == '_'))))
  else none

/-- Python `int(str)`: optional surrounding whitespace, optional sign, then a
digit group; `none` models the `ValueError` raised on anything else. -/
def pyInt (s : List Char) : Option Int :=
  let t := pyStrip s
  match t with
  | [] => none
  | c :: rest =>
    if c == '+' then pyIntCore 1 rest
    else if c == '-' then pyIntCore (-1) rest
    else pyIntCore 1 t

/-- The fixed message of the `ValueError` raised by `_get_zoneinfo` for an
unknown timezone (scheduler.py lines 298–301). -/
def invalidTimezoneMsg : String :=
  "Invalid timezone. Use an IANA TZ, e.g. UTC, Europe/Madrid, America/New_York."

/-- Message of the `ValueError` for a time spec that is not two fields. -/
def invalidTimeFormatMsg : String := "Invalid time format. Use HH:MM or ISO 8601."

/-- Message of the `ValueError` for an out-of-range hour or minute. -/
def outOfRangeMsg : String := "Hour or minute out of range"

/-- Message of the `ValueError` raised by `int()` on a non-numeric field. -/
def intLiteralMsg : String := "invalid literal for int() with base 10"

/-- `scheduler._get_zoneinfo`: `ZoneInfo(tz_name)` looked up in the ambient
tzdata database (modelled by the predicate `zoneOk`); a
`ZoneInfoNotFoundError` is converted into a `ValueError` with a fixed
message.  Errors are `ValueError`s carrying their message. -/
def get_zoneinfo (zoneOk : String → Bool) (tz_name : String) : Except String String :=
  if zoneOk tz_name then .ok tz_name else .error invalidTimezoneMsg

/-- `scheduler.parse_time_spec`.  The absolute-timestamp branch (taken when
the cleaned text contains `T` or `-`; scheduler.py lines 235–241: the
`Z → +00:00` replacement, `datetime.fromisoformat`, and timezone attachment /
conversion) delegates entirely to the `datetime` library and is modelled by
the explicit parameter `isoBranch`, applied to the cleaned text and the
timezone name.  The `HH:MM` branch is computed exactly. -/
def parse_time_spec
    (isoBranch : List Char → String → Except String (Int × Int × Option PyDateTime × String))
    (zoneOk : String → Bool) (time_spec : List Char) (timezone_name : String) :
    Except String (Int × Int × Option PyDateTime × String) :=
  let cleaned := pyStrip time_spec
  match get_zoneinfo zoneOk timezone_name with
  | .error e => .error e
  | .ok _ =>
    if cleaned.any (fun c => c == 'T') || cleaned.any (fun c => c == '-') then
      isoBranch cleaned timezone_name
    else
      let parts := splitOnChar ':' cleaned
      if parts.length ≠ 2 then .error invalidTimeFormatMsg
      else
        match pyInt (parts.getD 0 []), pyInt (parts.getD 1 []) with
        | some hour, some minute =>
          if 0 ≤ hour ∧ hour ≤ 23 ∧ 0 ≤ minute ∧ minute ≤ 59 then
            .ok (hour, minute, none, timezone_name)
          else .error outOfRangeMsg
        | _, _ => .error intLiteralMsg

/-- A stand-in for the absolute-timestamp branch, used only to instantiate
theorems at concrete inputs whose parsing never reaches that branch. -/
def isoStub : List Char → String → Except String (Int × Int × Option PyDateTime × String) :=
  fun _ _ => .error "absolute-timestamp branch not exercised"

/-- A one-zone tzdata database, for concrete instantiations. -/
def utcOnly : String → Bool := fun z => z == "UTC"

/-! ### Supporting lemmas for the parser -/

lemma digit_toNat_bounds {c : Char} (h : isDigitChar c = true) :
    48 ≤ c.toNat ∧ c.toNat ≤ 57 := by
  simpa [isDigitChar, Bool.and_eq_true, decide_eq_true_eq] using h

lemma digit_ne_char {c : Char} (h : isDigitChar c = true) {d : Char}
    (hd : d.toNat < 48 ∨ 57 < d.toNat) : c ≠ d := by
  obtain ⟨h1, h2⟩ := digit_toNat_bounds h
  intro he
  subst he
  omega

lemma not_isPyWs_of_digit {c : Char} (h : isDigitChar c = true) : isPyWs c = false := by
  obtain ⟨h1, h2⟩ := digit_toNat_bounds h
  simp only [isPyWs, Bool.or_eq_false_iff, decide_eq_false_iff_not]
  omega

lemma dropWhile_eq_self_of_forall {p : Char → Bool} {l : List Char}
    (h : ∀ c ∈ l, p c = false) : l.dropWhile p = l := by
  cases l with
  | nil => rfl
  | cons c rest => simp [List.dropWhile_cons, h c (by simp)]

lemma pyStrip_eq_self {l : List Char} (h : ∀ c ∈ l, isPyWs c = false) :
    pyStrip l = l := by
  unfold pyStrip
  rw [dropWhile_eq_self_of_forall h,
    dropWhile_eq_self_of_forall (fun c hc => h c (List.mem_reverse.mp hc)),
    List.reverse_reverse]

lemma splitOnChar_eq_single {sep : Char} {l : List Char}
    (h : ∀ c ∈ l, c ≠ sep) : splitOnChar sep l = [l] := by
  induction l with
  | nil => rfl
  | cons c rest ih =>
    have hc : ¬ c = sep := h c (by simp)
    simp only [splitOnChar, if_neg hc, ih (fun x hx => h x (List.mem_cons_of_mem _ hx))]

lemma splitOnChar_append {sep : Char} {a : List Char} (b : List Char)
    (h : ∀ c ∈ a, c ≠ sep) :
    splitOnChar sep (a ++ sep :: b) = a :: splitOnChar sep b := by
  induction a with
  | nil => simp [splitOnChar]
  | cons c a' ih =>
    have hc : ¬ c = sep := h c (by simp)
    simp only [List.cons_append, splitOnChar, if_neg hc, List.append_eq,
      ih (fun x hx => h x (List.mem_cons_of_mem _ hx))]

lemma all_digits_core_ok {l : List Char} (hne : l ≠ [])
    (h : ∀ c ∈ l, isDigitChar c = true) : pyIntCoreOk l = true := by
  unfold pyIntCoreOk
  obtain ⟨c, rest, rfl⟩ := List.exists_cons_of_ne_nil hne
  rw [Bool.and_eq_true, Bool.and_eq_true, Bool.and_eq_true]
  refine ⟨⟨⟨?_, ?_⟩, ?_⟩, ?_⟩
  · simpa using h c (by simp)
  · rw [List.getLast?_eq_getLast (c :: rest) (by simp)]
    simpa using h _ (List.getLast_mem _)
  · rw [List.all_eq_true]
    intro x hx
    simp [h x hx]
  · rw [List.all_eq_true]
    intro p hp
    have h1 : p.1 ∈ c :: rest := by
      obtain ⟨x, y⟩ := p
      exact (List.of_mem_zip hp).1
    have : p.1 ≠ '_' := digit_ne_char (h _ h1) (Or.inr (by decide))
    simp [this]

lemma filter_no_underscore {l : List Char} (h : ∀ c ∈ l, isDigitChar c = true) :
    l.filter (fun c => !(c == '_')) = l :=
  List.filter_eq_self.mpr (fun c hc => by
    have : c ≠ '_' := digit_ne_char (h c hc) (Or.inr (by decide))
    simp [this])

lemma pyInt_digits {l : List Char} (hne : l ≠ [])
    (h : ∀ c ∈ l, isDigitChar c = true) : pyInt l = some (digitsVal l) := by
  have hps : pyStrip l = l :=
    pyStrip_eq_self (fun c hc => not_isPyWs_of_digit (h c hc))
  obtain ⟨c, rest, rfl⟩ := List.exists_cons_of_ne_nil hne
  have hc : isDigitChar c = true := h c (by simp)
  have hplus : (c == '+') = false := by
    have : c ≠ '+' := digit_ne_char hc (Or.inl (by decide))
    simp [this]
  have hminus : (c == '-') = false := by
    have : c ≠ '-' := digit_ne_char hc (Or.inl (by decide))
    simp [this]
  unfold pyInt
  rw [hps]
  simp only [hplus, hminus, Bool.false_eq_true, if_false]
  unfold pyIntCore
  rw [if_pos (all_digits_core_ok (by simp) h), filter_no_underscore h, one_mul]

lemma digitsVal_nonneg_aux (l : List Char) :
    ∀ acc : Int, (∀ c ∈ l, isDigitChar c = true) → 0 ≤ acc →
      0 ≤ l.foldl (fun a c => a * 10 + ((c.toNat : Int) - 48)) acc := by
  induction l with
  | nil => intro acc _ hacc; simpa using hacc
  | cons c rest ih =>
    intro acc h hacc
    rw [List.foldl_cons]
    refine ih _ (fun x hx => h x (List.mem_cons_of_mem _ hx)) ?_
    have hb := (digit_toNat_bounds (h c (by simp))).1
    have h48 : (48 : Int) ≤ (c.toNat : Int) := by exact_mod_cast hb
    have : (0 : Int) ≤ acc * 10 := by positivity
    omega

lemma digitsVal_nonneg {l : List Char} (h : ∀ c ∈ l, isDigitChar c = true) :
    0 ≤ digitsVal l :=
  digitsVal_nonneg_aux l 0 h le_rfl

lemma hhmm_any_false {hstr mstr : List Char}
    (hh : ∀ c ∈ hstr, isDigitChar c = true) (hm : ∀ c ∈ mstr, isDigitChar c = true)
    {d : Char} (hd : d.toNat < 48 ∨ 57 < d.toNat) (hd' : d ≠ ':') :
    (hstr ++ ':' :: mstr).any (fun c => c == d) = false := by
  rw [List.any_eq_false]
  intro x hx
  rcases List.mem_append.mp hx with hx | hx
  · simp [digit_ne_char (hh x hx) hd]
  · rcases List.mem_cons.mp hx with rfl | hx
    · simp [Ne.symm hd']
    · simp [digit_ne_char (hm x hx) hd]

/-! ### Claim C7 -/

/-- Claim C7: for every input whose stripped form is a valid `HH:MM` time
(two nonempty colon-separated digit fields, hour ≤ 23, minute ≤ 59,
possibly surrounded by whitespace) and every timezone name accepted by the
zone database, `parse_time_spec` returns `run_at = none`, the parsed hour
and minute, and the supplied timezone name unchanged; and for any input
without a date separator whose colon-split is not exactly two `int()`-
parseable fields, or whose hour/minute is out of range, it fails with a
`ValueError` (the spec scopes this sentence to inputs in the non-timestamp
branch, i.e. without `T`/`-`). -/
theorem C7_parse_time_spec_hhmm :
    (∀ (isoBranch : List Char → String →
          Except String (Int × Int × Option PyDateTime × String))
        (zoneOk : String → Bool) (time_spec : List Char) (tz : String)
        (hstr mstr : List Char),
      zoneOk tz = true →
      pyStrip time_spec = hstr ++ ':' :: mstr →
      hstr ≠ [] → mstr ≠ [] →
      (∀ c ∈ hstr, isDigitChar c = true) → (∀ c ∈ mstr, isDigitChar c = true) →
      digitsVal hstr ≤ 23 → digitsVal mstr ≤ 59 →
      parse_time_spec isoBranch zoneOk time_spec tz
        = .ok (digitsVal hstr, digitsVal mstr, none, tz))
    ∧ (∀ (isoBranch : List Char → String →
          Except String (Int × Int × Option PyDateTime × String))
        (zoneOk : String → Bool) (time_spec : List Char) (tz : String),
      zoneOk tz = true →
      (pyStrip time_spec).any (fun c => c == 'T') = false →
      (pyStrip time_spec).any (fun c => c == '-') = false →
      ((splitOnChar ':' (pyStrip time_spec)).length ≠ 2
        ∨ pyInt ((splitOnChar ':' (pyStrip time_spec)).getD 0 []) = none
        ∨ pyInt ((splitOnChar ':' (pyStrip time_spec)).getD 1 []) = none
        ∨ (∀ h m : Int,
            pyInt ((splitOnChar ':' (pyStrip time_spec)).getD 0 []) = some h →
            pyInt ((splitOnChar ':' (pyStrip time_spec)).getD 1 []) = some m →
            ¬(0 ≤ h ∧ h ≤ 23 ∧ 0 ≤ m ∧ m ≤ 59))) →
      ∃ msg, parse_time_spec isoBranch zoneOk time_spec tz = .error msg) := by
  constructor
  · intro isoBranch zoneOk time_spec tz hstr mstr hz hsplit hne1 hne2 hd1 hd2 h23 h59
    have h0h : 0 ≤ digitsVal hstr := digitsVal_nonneg hd1
    have h0m : 0 ≤ digitsVal mstr := digitsVal_nonneg hd2
    have hT : (pyStrip time_spec).any (fun c => c == 'T') = false := by
      rw [hsplit]; exact hhmm_any_false hd1 hd2 (Or.inr (by decide)) (by decide)
    have hD : (pyStrip time_spec).any (fun c => c == '-') = false := by
      rw [hsplit]; exact hhmm_any_false hd1 hd2 (Or.inl (by decide)) (by decide)
    have hcolon : ∀ c ∈ hstr, c ≠ ':' :=
      fun c hc => digit_ne_char (hd1 c hc) (Or.inr (by decide))
    have hsp : splitOnChar ':' (pyStrip time_spec) = [hstr, mstr] := by
      rw [hsplit, splitOnChar_append mstr hcolon,
        splitOnChar_eq_single (fun c hc => digit_ne_char (hd2 c hc) (Or.inr (by decide)))]
    simp only [parse_time_spec, get_zoneinfo, hz, if_true, hT, hD, Bool.or_self,
      Bool.false_eq_true, if_false, hsp]
    simp only [List.length_cons, List.length_nil, List.getD_cons_zero,
      List.getD_cons_succ, pyInt_digits hne1 hd1, pyInt_digits hne2 hd2]
    rw [if_neg (by omega)]
    exact if_pos ⟨h0h, h23, h0m, h59⟩
  · intro isoBranch zoneOk time_spec tz hz hT hD hbad
    simp only [parse_time_spec, get_zoneinfo, hz, if_true, hT, hD, Bool.or_self,
      Bool.false_eq_true, if_false]
    by_cases hlen : (splitOnChar ':' (pyStrip time_spec)).length = 2
    · rw [if_neg (fun hne => hne hlen)]
      rcases hbad with hbad | hp0 | hp1 | hr
      · exact absurd hlen hbad
      · exact ⟨intLiteralMsg, by rw [hp0]⟩
      · rcases h0 : pyInt ((splitOnChar ':' (pyStrip time_spec)).getD 0 []) with _ | v0
        · exact ⟨intLiteralMsg, rfl⟩
        · exact ⟨intLiteralMsg, by rw [hp1]⟩
      · rcases h0 : pyInt ((splitOnChar ':' (pyStrip time_spec)).getD 0 []) with _ | v0
        · exact ⟨intLiteralMsg, rfl⟩
        · rcases h1 : pyInt ((splitOnChar ':' (pyStrip time_spec)).getD 1 []) with _ | v1
          · exact ⟨intLiteralMsg, rfl⟩
          · exact ⟨outOfRangeMsg, if_neg (hr v0 v1 h0 h1)⟩
    · exact ⟨invalidTimeFormatMsg, if_pos hlen⟩

/-- Witness for `C7_parse_time_spec_hhmm`: `" 08:30 "` parses to
`(8, 30, none, "UTC")`, and `"1:2:3"` fails with a `ValueError`. -/
theorem C7_parse_time_spec_hhmm_witness :
    parse_time_spec isoStub utcOnly (" 08:30 ".data) "UTC" = .ok (8, 30, none, "UTC")
    ∧ ∃ msg, parse_time_spec isoStub utcOnly ("1:2:3".data) "UTC" = .error msg := by
  constructor
  · have h := C7_parse_time_spec_hhmm.1 isoStub utcOnly (" 08:30 ".data) "UTC"
      ("08".data) ("30".data) (by decide) (by decide) (by decide) (by decide)
      (by decide) (by decide) (by decide) (by decide)
    exact h.trans (by decide)
  · exact C7_parse_time_spec_hhmm.2 isoStub utcOnly ("1:2:3".data) "UTC"
      (by decide) (by decide) (by decide) (Or.inl (by decide))

/-! ### Claim C8 -/

set_option maxRecDepth 8192 in
/-- Claim C8, counterexample.  For the unknown zone `"Mars/Olympus"`,
`parse_time_spec` does fail with a `ValueError`, but its message is the fixed
string of `_get_zoneinfo`, which does not contain (“name”) the supplied
zone, refuting the claim that the message names the invalid zone. -/
theorem C8_counterexample :
    parse_time_spec isoStub utcOnly ("08:00".data) "Mars/Olympus"
      = .error invalidTimezoneMsg
    ∧ ¬ ("Mars/Olympus".data <:+: invalidTimezoneMsg.data) :=
  ⟨by decide, by decide⟩

/-- Claim C8 as amended: for every timezone name rejected by the zone
database, `parse_time_spec` fails with a `ValueError` (not an unhandled
`ZoneInfoNotFoundError`) whose message is the fixed string suggesting
example valid zones — it does not include the supplied zone name. -/
theorem C8_unknown_timezone
    (isoBranch : List Char → String →
      Except String (Int × Int × Option PyDateTime × String))
    (zoneOk : String → Bool) (time_spec : List Char) (tz : String)
    (h : zoneOk tz = false) :
    parse_time_spec isoBranch zoneOk time_spec tz = .error invalidTimezoneMsg := by
  simp [parse_time_spec, get_zoneinfo, h]

/-- Witness for `C8_unknown_timezone` at the concrete zone `"NoSuch/Zone"`. -/
theorem C8_unknown_timezone_witness :
    utcOnly "NoSuch/Zone" = false
    ∧ parse_time_spec isoStub utcOnly ("08:00".data) "NoSuch/Zone"
        = .error invalidTimezoneMsg :=
  ⟨by decide, C8_unknown_timezone isoStub utcOnly ("08:00".data) "NoSuch/Zone" (by decide)⟩

/-! ## models.py and storage.py -/

/-- The Python exception classes distinguished by the embedded operations. -/
inductive PyErr
  | typeError (msg : String)
  | attributeError (msg : String)
  | valueError (msg : String)
  | telegramBadRequest (msg : String)
  | telegramError (msg : String)
deriving DecidableEq, Repr

/-- `models.Task`: exactly the fields declared by the `@dataclass` (note that
the dataclass declares **no** `is_reminder` field, although `storage.py` and
the repository's tests use one). -/
structure Task where
  id : Option Int
  chat_id : Int
  prompt : String
  hour : Int
  minute : Int
  timezone : String
  run_at : Option PyDateTime := none
  paused : Bool := false
  interval_minutes : Option Int := none
  name : Option String := none
  days_of_week : Option String := none
deriving DecidableEq, Repr

/-- Message of the `AttributeError` raised by `task.is_reminder`. -/
def attrIsReminderMsg : String := "Task object has no attribute is_reminder"

/-- Message of the `TypeError` raised by `Task(..., is_reminder=...)`. -/
def rowToTaskMsg : String :=
  "Task.__init__ got an unexpected keyword argument is_reminder"

/-- Python attribute lookup `task.is_reminder` on a `models.Task` instance:
the dataclass declares no such field and nothing in the sources assigns one,
so the lookup raises `AttributeError`. -/
def Task.attr_is_reminder (_ : Task) : Except PyErr Bool :=
  .error (.attributeError attrIsReminderMsg)

/-- `Task.job_id`: `"task-{id}"`, or the empty string when `id` is `None`. -/
def Task.jobId (t : Task) : String :=
  match t.id with
  | some i => "task-" ++ toString i
  | none => ""

/-- A row of the `tasks` table created by `TaskStorage._init_db` (the schema
does include an `is_reminder INTEGER NOT NULL DEFAULT 0` column).  The
`run_at` TEXT column stores `run_at.isoformat()`; since
`datetime.fromisoformat` is the exact inverse of `isoformat`, the row is
modelled as holding the datetime value itself.  Boolean columns hold the
integers 0/1 as in SQLite. -/
structure TaskRow where
  id : Int
  chat_id : Int
  prompt : String
  hour : Int
  minute : Int
  timezone : String
  run_at : Option PyDateTime
  paused : Int
  interval_minutes : Option Int
  name : Option String
  days_of_week : Option String
  is_reminder : Int
deriving DecidableEq, Repr

/-- The SQLite database state: rows in insertion (rowid) order plus the
`AUTOINCREMENT` counter for the next primary key. -/
structure DB where
  rows : List TaskRow
  next_id : Int
deriving DecidableEq, Repr

/-- The `WHERE id = ? AND chat_id = ?` condition shared by all scoped
queries. -/
def rowMatch (task_id chat_id : Int) (r : TaskRow) : Bool :=
  r.id == task_id && r.chat_id == chat_id

/-- `TaskStorage.add_task`: builds the INSERT parameter tuple — whose last
element evaluates `task.is_reminder` (storage.py line 115) — then inserts the
row and returns the task with `id` set to the new rowid.  Because
`models.Task` declares no `is_reminder` field, the tuple construction raises
`AttributeError` before the INSERT executes. -/
def add_task (task : Task) (db : DB) : Except PyErr (DB × Task) := do
  let ir ← task.attr_is_reminder
  let row : TaskRow :=
    { id := db.next_id, chat_id := task.chat_id, prompt := task.prompt,
      hour := task.hour, minute := task.minute, timezone := task.timezone,
      run_at := task.run_at, paused := if task.paused then 1 else 0,
      interval_minutes := task.interval_minutes, name := task.name,
      days_of_week := task.days_of_week, is_reminder := if ir then 1 else 0 }
  pure ({ rows := db.rows ++ [row], next_id := db.next_id + 1 },
        { task with id := some db.next_id })

/-- `TaskStorage._row_to_task`: computes `run_at` from the stored text and
reads the `is_reminder` column, then calls `Task(..., is_reminder=...)`.
The `models.Task` dataclass declares no `is_reminder` parameter, so the
constructor call raises `TypeError` for every row. -/
def row_to_task (_ : TaskRow) : Except PyErr Task :=
  .error (.typeError rowToTaskMsg)

/-- `TaskStorage.get_task`: `SELECT * WHERE id = ? AND chat_id = ?`,
converting the fetched row when one exists. -/
def get_task (task_id chat_id : Int) (db : DB) : Except PyErr (Option Task) :=
  match db.rows.find? (rowMatch task_id chat_id) with
  | some row =>
    match row_to_task row with
    | .ok t => .ok (some t)
    | .error e => .error e
  | none => .ok none

/-- `TaskStorage.set_paused`: `UPDATE tasks SET paused = ? WHERE id = ? AND
chat_id = ?`; returns `rowcount > 0`. -/
def set_paused (task_id chat_id : Int) (paused : Bool) (db : DB) : DB × Bool :=
  ({ rows := db.rows.map (fun r =>
        if rowMatch task_id chat_id r then { r with paused := if paused then 1 else 0 }
        else r),
     next_id := db.next_id },
   db.rows.any (rowMatch task_id chat_id))

/-- `TaskStorage.update_prompt`: `UPDATE tasks SET prompt = ? WHERE id = ?
AND chat_id = ?`; returns `rowcount > 0`. -/
def update_prompt (task_id chat_id : Int) (new_prompt : String) (db : DB) : DB × Bool :=
  ({ rows := db.rows.map (fun r =>
        if rowMatch task_id chat_id r then { r with prompt := new_prompt } else r),
     next_id := db.next_id },
   db.rows.any (rowMatch task_id chat_id))

/-- Insertion into a list sorted ascending by `id` (for `ORDER BY id ASC`). -/
def insertById (r : TaskRow) : List TaskRow → List TaskRow
  | [] => [r]
  | x :: xs => if r.id ≤ x.id then r :: x :: xs else x :: insertById r xs

/-- Sort rows ascending by `id` (`ORDER BY id ASC`). -/
def sortById : List TaskRow → List TaskRow
  | [] => []
  | x :: xs => insertById x (sortById xs)

/-- `TaskStorage.list_tasks`: `SELECT * WHERE chat_id = ? ORDER BY id ASC`,
then convert every row (the list comprehension raises on the first failing
conversion). -/
def list_tasks (chat_id : Int) (db : DB) : Except PyErr (List Task) :=
  (sortById (db.rows.filter (fun r => r.chat_id == chat_id))).mapM row_to_task

/-- `TaskStorage.delete_task`: `DELETE FROM tasks WHERE id = ? AND
chat_id = ?`; returns `rowcount > 0`. -/
def delete_task (task_id chat_id : Int) (db : DB) : DB × Bool :=
  ({ rows := db.rows.filter (fun r => !(rowMatch task_id chat_id r)),
     next_id := db.next_id },
   db.rows.any (rowMatch task_id chat_id))

/-! ### Claim C1 -/

/-- Claim C1 (code bug).  The claimed add-then-get round trip never gets off
the ground: for **every** task and store state, `TaskStorage.add_task`
raises `AttributeError` while building the INSERT tuple, because it reads
`task.is_reminder` and the `models.Task` dataclass declares no such field
(the repository's own tests `test_add_task`/`test_get_task` require `add`
to succeed, and `test_models.py` requires the field to exist).  So `add`
never "completes returning the task with an id assigned". -/
theorem C1_add_task_always_fails (task : Task) (db : DB) :
    add_task task db = .error (.attributeError attrIsReminderMsg) := rfl

/-! ### Claim C5 -/

lemma map_eq_self_of_no_hit {l : List TaskRow} {p : TaskRow → Bool}
    (g : TaskRow → TaskRow) (h : ∀ x ∈ l, p x = false) :
    (l.map fun r => if p r then g r else r) = l := by
  induction l with
  | nil => rfl
  | cons c rest ih =>
    simp only [List.map_cons, h c (List.mem_cons_self c rest), Bool.false_eq_true,
      if_false, ih (fun x hx => h x (List.mem_cons_of_mem _ hx))]

lemma any_eq_false_of {l : List TaskRow} {p : TaskRow → Bool}
    (h : ∀ x ∈ l, p x = false) : l.any p = false := by
  rw [List.any_eq_false]
  intro x hx
  simp [h x hx]

lemma filter_not_eq_self {l : List TaskRow} {p : TaskRow → Bool}
    (h : ∀ x ∈ l, p x = false) : l.filter (fun r => !(p r)) = l :=
  List.filter_eq_self.mpr (fun a ha => by simp [h a ha])

/-- Claim C5: a Task row owned by destination `r.chat_id` is, for every Job
Store operation invoked with a different destination `B`, indistinguishable
from a missing record: `get` returns `None`, `list` returns exactly what it
returns on the store without the row, and `update_prompt` / `set_paused` /
`delete` return `False` and leave the store unchanged.  (The `id` uniqueness
hypothesis is the PRIMARY KEY invariant of the `tasks` table.) -/
theorem C5_destination_isolation
    (db : DB) (r : TaskRow) (pre post : List TaskRow) (B : Int)
    (np : String) (pz : Bool)
    (hrows : db.rows = pre ++ r :: post)
    (hB : r.chat_id ≠ B)
    (huniq : ∀ rr ∈ db.rows, rr.id = r.id → rr = r) :
    get_task r.id B db = .ok none
    ∧ list_tasks B db = list_tasks B { rows := pre ++ post, next_id := db.next_id }
    ∧ update_prompt r.id B np db = (db, false)
    ∧ set_paused r.id B pz db = (db, false)
    ∧ delete_task r.id B db = (db, false) := by
  have hno : ∀ x ∈ db.rows, rowMatch r.id B x = false := by
    intro x hx
    by_cases hid : x.id = r.id
    · have hxr : x = r := huniq x hx hid
      subst hxr
      simp [rowMatch, hB]
    · simp [rowMatch, hid]
  refine ⟨?_, ?_, ?_, ?_, ?_⟩
  · unfold get_task
    rw [List.find?_eq_none.mpr (fun x hx => by simp [hno x hx])]
  · unfold list_tasks
    have hfeq : db.rows.filter (fun rr => rr.chat_id == B)
        = (pre ++ post).filter (fun rr => rr.chat_id == B) := by
      rw [hrows, List.filter_append, List.filter_append, List.filter_cons]
      simp [beq_eq_false_iff_ne.mpr hB]
    rw [hfeq]
  · unfold update_prompt
    rw [map_eq_self_of_no_hit _ hno, any_eq_false_of hno]
  · unfold set_paused
    rw [map_eq_self_of_no_hit _ hno, any_eq_false_of hno]
  · unfold delete_task
    rw [filter_not_eq_self hno, any_eq_false_of hno]

/-- A concrete row owned by destination 111, and a store containing it. -/
def rowW : TaskRow :=
  { id := 1, chat_id := 111, prompt := "Chat 1", hour := 8, minute := 0,
    timezone := "UTC", run_at := none, paused := 0, interval_minutes := none,
    name := none, days_of_week := none, is_reminder := 0 }

/-- A concrete one-row store for instantiating the isolation theorem. -/
def dbW : DB := { rows := [rowW], next_id := 2 }

/-- Witness for `C5_destination_isolation` with destination `222 ≠ 111`. -/
theorem C5_destination_isolation_witness :
    get_task rowW.id 222 dbW = .ok none
    ∧ list_tasks 222 dbW = list_tasks 222 { rows := [] ++ [], next_id := dbW.next_id }
    ∧ update_prompt rowW.id 222 "x" dbW = (dbW, false)
    ∧ set_paused rowW.id 222 true dbW = (dbW, false)
    ∧ delete_task rowW.id 222 dbW = (dbW, false) :=
  C5_destination_isolation dbW rowW [] [] 222 "x" true rfl (by decide) (by decide)

/-! ## scheduler.py — trigger computation (`_schedule_task`) -/

/-- The APScheduler trigger armed for a task.  `DateTrigger` is built from
`task.run_at.astimezone(ZoneInfo(task.timezone))` — `astimezone` preserves
the instant, so the trigger is modelled as carrying the datetime value and
the zone name; `CronTrigger`/`IntervalTrigger` carry their keyword
arguments. -/
inductive Trigger
  | date (run_date : PyDateTime) (tz : String)
  | interval (minutes : Int)
  | cron (hour minute : Int) (tz : String) (day_of_week : Option String)
deriving DecidableEq, Repr

/-- The `CronTrigger` built in the final branch of `_schedule_task`:
`day_of_week` is added to the kwargs only when `task.days_of_week` is truthy
(not `None` and not the empty string). -/
def cronOf (task : Task) : Trigger :=
  .cron task.hour task.minute task.timezone
    (match task.days_of_week with
     | some s => if s = "" then none else some s
     | none => none)

/-- Message of the `ValueError` raised for an unsaved task. -/
def schedNoIdMsg : String := "Task must have an id before scheduling"

/-- `BotScheduler._schedule_task`: reject a task without an id, then choose
the trigger by Python truthiness in source order — `task.run_at` first
(a datetime is always truthy), then `task.interval_minutes` (truthy iff not
`None` and nonzero), else the cron trigger — and register it under
`task.job_id` (with `replace_existing=True`). -/
def schedule_task (task : Task) : Except PyErr (String × Trigger) :=
  match task.id with
  | none => .error (.valueError schedNoIdMsg)
  | some _ =>
    match task.run_at with
    | some dt => .ok (task.jobId, .date dt task.timezone)
    | none =>
      match task.interval_minutes with
      | some n =>
        if n ≠ 0 then .ok (task.jobId, .interval n)
        else .ok (task.jobId, cronOf task)
      | none => .ok (task.jobId, cronOf task)

/-! ### Claim C10 -/

/-- Claim C10: `_schedule_task` dispatches on the schedule fields in the
fixed order `run_at`, then `interval_minutes`, then daily-cron; hence a task
violating the mutual-exclusivity invariant (both `run_at` and a positive
`interval_minutes` set) is silently armed as a one-time (date) trigger only,
and a task with `id = None` is rejected with a `ValueError` before any
trigger is armed.  The last two conjuncts pin down the rest of the priority
order. -/
theorem C10_schedule_dispatch_priority :
    (∀ task : Task, task.id = none →
      schedule_task task = .error (.valueError schedNoIdMsg))
    ∧ (∀ (task : Task) (i : Int) (dt : PyDateTime) (n : Int),
        task.id = some i → task.run_at = some dt →
        task.interval_minutes = some n → 0 < n →
        schedule_task task = .ok (task.jobId, .date dt task.timezone))
    ∧ (∀ (task : Task) (i n : Int),
        task.id = some i → task.run_at = none →
        task.interval_minutes = some n → n ≠ 0 →
        schedule_task task = .ok (task.jobId, .interval n))
    ∧ (∀ (task : Task) (i : Int),
        task.id = some i → task.run_at = none →
        (task.interval_minutes = none ∨ task.interval_minutes = some 0) →
        schedule_task task = .ok (task.jobId, cronOf task)) := by
  refine ⟨?_, ?_, ?_, ?_⟩
  · intro task h
    simp [schedule_task, h]
  · intro task i dt n hi hr _ _
    simp [schedule_task, hi, hr]
  · intro task i n hi hr hn hne
    simp [schedule_task, hi, hr, hn, hne]
  · intro task i hi hr hint
    rcases hint with h | h <;> simp [schedule_task, hi, hr, h]

/-- A task with every schedule field set, violating mutual exclusivity. -/
def taskBoth : Task :=
  { id := some 7, chat_id := 1, prompt := "p", hour := 9, minute := 30,
    timezone := "UTC",
    run_at := some { year := 2026, month := 1, day := 2, hour := 9, minute := 30,
                     second := 0, microsecond := 0, utcoffsetMinutes := some 0 },
    paused := false, interval_minutes := some 15, name := none,
    days_of_week := none }

/-- Witness for `C10_schedule_dispatch_priority` on concrete tasks. -/
theorem C10_schedule_dispatch_priority_witness :
    schedule_task { taskBoth with id := none } = .error (.valueError schedNoIdMsg)
    ∧ schedule_task taskBoth
        = .ok ("task-7",
            .date { year := 2026, month := 1, day := 2, hour := 9, minute := 30,
                    second := 0, microsecond := 0, utcoffsetMinutes := some 0 } "UTC")
    ∧ schedule_task { taskBoth with run_at := none } = .ok ("task-7", .interval 15)
    ∧ schedule_task { taskBoth with run_at := none, interval_minutes := none }
        = .ok ("task-7", .cron 9 30 "UTC" none) := by
  refine ⟨?_, ?_, ?_, ?_⟩
  · exact C10_schedule_dispatch_priority.1 _ rfl
  · exact (C10_schedule_dispatch_priority.2.1 taskBoth 7 _ 15 rfl rfl rfl
      (by decide)).trans (by decide)
  · exact (C10_schedule_dispatch_priority.2.2.1 { taskBoth with run_at := none } 7 15
      rfl rfl rfl (by decide)).trans (by decide)
  · exact (C10_schedule_dispatch_priority.2.2.2
      { taskBoth with run_at := none, interval_minutes := none } 7
      rfl rfl (Or.inl rfl)).trans (by decide)

/-! ## openai_client.py — `generate_html` retry loop

The OpenAI client call `client.responses.create(**params)` either returns a
response — modelled, through `_extract_text_from_response`, by the extracted
text — or raises; the exceptions `RateLimitError`, `APIError`,
`APIConnectionError`, `APITimeoutError` form the retryable class, everything
else is non-retryable.  The behaviour of the external API across attempts is
a parameter `call : Nat → GenCallResult` giving the outcome of the `k`-th
call.  `asyncio.sleep` durations are recorded in the trace; the delay
arithmetic (`delay = 1.0`, `delay = min(delay * 2, 10)`) stays on the exact
values 1, 2, 4, 8, 10, so `Nat` represents the floats exactly. -/

/-- An exception escaping `generate_html`: the retryable flag of its class
and its message (`str(exc)`).  The final `RuntimeError` is non-retryable. -/
structure GenErr where
  retryable : Bool
  msg : String
deriving DecidableEq, Repr

/-- Outcome of one `client.responses.create` call: the text that
`_extract_text_from_response` yields, or a raised exception. -/
inductive GenCallResult
  | success (text : List Char)
  | failure (retryable : Bool) (msg : String)
deriving DecidableEq, Repr

/-- The apology returned when the response contains no extractable text. -/
def fallbackText : List Char :=
  "Lo siento, no pude generar una respuesta. Por favor, inténtalo de nuevo.".data

/-- Observable behaviour of one `generate_html` run: the returned text or
escaping exception, the number of API calls made, and the backoff delays
slept between attempts (in order). -/
structure GenTrace where
  result : Except GenErr (List Char)
  attempts : Nat
  sleeps : List Nat
deriving DecidableEq, Repr

/-- The `for attempt in range(1, max_retries + 1)` loop of `generate_html`
(openai_client.py lines 101–137), iterating over the remaining attempt
numbers with the current backoff delay, the reversed list of delays slept so
far, and the number of calls already made.  A successful call returns the
extracted text, or the fallback message when the text is empty; a retryable
failure at the last attempt breaks and re-raises it; any other retryable
failure sleeps `delay` and doubles it (capped at 10); a non-retryable
failure propagates at once.  An exhausted (empty) attempt range raises
`RuntimeError("Could not generate response")`. -/
def genIter (call : Nat → GenCallResult) (max_retries : Nat) :
    List Nat → Nat → List Nat → Nat → GenTrace
  | [], _, sleeps, ncalls =>
    ⟨.error { retryable := false, msg := "Could not generate response" },
      ncalls, sleeps.reverse⟩
  | attempt :: rest, delay, sleeps, ncalls =>
    match call attempt with
    | .success text =>
      ⟨.ok (if text.isEmpty then fallbackText else text), ncalls + 1, sleeps.reverse⟩
    | .failure true msg =>
      if attempt = max_retries then ⟨.error ⟨true, msg⟩, ncalls + 1, sleeps.reverse⟩
      else genIter call max_retries rest (min (delay * 2) 10) (delay :: sleeps) (ncalls + 1)
    | .failure false msg => ⟨.error ⟨false, msg⟩, ncalls + 1, sleeps.reverse⟩

/-- `openai_client.generate_html` for a given retry budget and API
behaviour: run the attempt loop over `1, …, max_retries` starting from a
1-second delay. -/
def generate_html (max_retries : Nat) (call : Nat → GenCallResult) : GenTrace :=
  genIter call max_retries (List.range' 1 max_retries) 1 [] 0

/-- The backoff delays produced by starting at `d` and doubling with cap 10:
`backoffFrom 1 n = [1, 2, 4, 8, 10, 10, …]` (`n` delays). -/
def backoffFrom (d : Nat) : Nat → List Nat
  | 0 => []
  | n + 1 => d :: backoffFrom (min (d * 2) 10) n

/-! ## scheduler.py — execution pipeline (`_execute_task`) -/

/-- A `bot.send_message` request: destination chat, text, and parse mode
(`some "HTML"` for `ParseMode.HTML`, `none` for `parse_mode=None`). -/
structure SendReq where
  chat_id : Int
  text : List Char
  parse_mode : Option String
deriving DecidableEq, Repr

/-- Outcome of a `bot.send_message` call: delivered, rejected with
`TelegramBadRequest`, or failed with any other exception. -/
inductive SendOutcome
  | ok
  | badRequest (msg : String)
  | otherErr (msg : String)
deriving DecidableEq, Repr

/-- Scheduler-side state: the task store plus the ids of the armed
APScheduler jobs. -/
structure SchedSt where
  db : DB
  jobs : List String
deriving DecidableEq, Repr

/-- `BotScheduler.remove_task`: delete from the store; if a row was deleted,
deregister the job `task-{task_id}` (a missing job only logs — removal from
the armed set is unconditional in effect). -/
def remove_task (task_id chat_id : Int) (st : SchedSt) : SchedSt × Bool :=
  let d := delete_task task_id chat_id st.db
  let job_id := "task-" ++ toString task_id
  if d.2 then ({ db := d.1, jobs := st.jobs.filter (fun j => j ≠ job_id) }, true)
  else ({ db := d.1, jobs := st.jobs }, false)

/-- The fixed prefix of the failure notification message. -/
def failPrefix : List Char := "Failed to generate response: ".data

/-- `BotScheduler._notify_failure`: send
`"Failed to generate response: " + escape_html(str(exc))` in HTML mode; an
exception raised by this send propagates out of the `except` handler. -/
def notify_failure (send : SendReq → SendOutcome) (chat_id : Int) (excMsg : String) :
    (SendReq × SendOutcome) × Except PyErr Unit :=
  let req : SendReq :=
    { chat_id := chat_id, text := failPrefix ++ escape_html excMsg.data,
      parse_mode := some "HTML" }
  match send req with
  | .ok => ((req, .ok), .ok ())
  | .badRequest m => ((req, .badRequest m), .error (.telegramBadRequest m))
  | .otherErr m => ((req, .otherErr m), .error (.telegramError m))

/-- Observable behaviour of one `_execute_task` run: generator attempts and
backoff sleeps, every send request with its outcome (in order), the final
scheduler state, and the exception escaping `_execute_task` (if any). -/
structure ExecTrace where
  genAttempts : Nat
  genSleeps : List Nat
  sent : List (SendReq × SendOutcome)
  db : DB
  jobs : List String
  result : Except PyErr Unit
deriving DecidableEq, Repr

/-- The `try`-body of `_execute_task` (scheduler.py lines 194–216): on
generation success the content is clamped — **not escaped** (the source
comments that escaping would break the model's HTML) — and sent in HTML
mode; a `TelegramBadRequest` triggers one plain-text fallback send; any
other exception from the sends, and any generation failure, is caught by the
outer `except` which sends the failure notification. -/
def pipeline_body (maxc : Int) (send : SendReq → SendOutcome) (chat_id : Int) :
    Except GenErr (List Char) → List (SendReq × SendOutcome) × Except PyErr Unit
  | .ok content0 =>
    let content := clamp_message content0 maxc truncSuffix
    let req1 : SendReq := { chat_id := chat_id, text := content, parse_mode := some "HTML" }
    (match send req1 with
     | .ok => ([(req1, .ok)], .ok ())
     | .badRequest m1 =>
       let req2 : SendReq := { chat_id := chat_id, text := content, parse_mode := none }
       (match send req2 with
        | .ok => ([(req1, .badRequest m1), (req2, .ok)], .ok ())
        | .badRequest m2 =>
          let nf := notify_failure send chat_id m2
          ([(req1, .badRequest m1), (req2, .badRequest m2), nf.1], nf.2)
        | .otherErr m2 =>
          let nf := notify_failure send chat_id m2
          ([(req1, .badRequest m1), (req2, .otherErr m2), nf.1], nf.2))
     | .otherErr m1 =>
       let nf := notify_failure send chat_id m1
       ([(req1, .otherErr m1), nf.1], nf.2))
  | .error e =>
    let nf := notify_failure send chat_id e.msg
    ([nf.1], nf.2)

/-- The `try`/`finally` region of `_execute_task`: run the generator, run the
try-body, and in `finally` remove the task (store row and armed trigger) iff
it is one-time (`task.run_at` truthy) and the run is not manual.  The id
passed to removal is `task.id or 0` (`getD 0`; Python's `or` also maps an
explicit id 0 to 0). -/
def run_pipeline (max_retries : Nat) (maxc : Int) (call : Nat → GenCallResult)
    (send : SendReq → SendOutcome) (task : Task) (manual : Bool) (st : SchedSt) :
    ExecTrace :=
  let gen := generate_html max_retries call
  let body := pipeline_body maxc send task.chat_id gen.result
  let stAfter :=
    if task.run_at.isSome && !manual then (remove_task (task.id.getD 0) task.chat_id st).1
    else st
  { genAttempts := gen.attempts, genSleeps := gen.sleeps, sent := body.1,
    db := stAfter.db, jobs := stAfter.jobs, result := body.2 }

/-- `BotScheduler._execute_task`: for a trigger-driven run (`manual = false`)
first re-read the task (`get_task(task.id or 0, task.chat_id)`) — this
happens *before* the `try`, so an exception here propagates with no
`finally` cleanup — and return silently if the re-read task is paused;
otherwise run the pipeline.  A manual run skips the re-read entirely. -/
def execute_task (max_retries : Nat) (maxc : Int) (call : Nat → GenCallResult)
    (send : SendReq → SendOutcome) (task : Task) (manual : Bool) (st : SchedSt) :
    ExecTrace :=
  if manual then run_pipeline max_retries maxc call send task manual st
  else
    match get_task (task.id.getD 0) task.chat_id st.db with
    | .error e =>
      { genAttempts := 0, genSleeps := [], sent := [], db := st.db,
        jobs := st.jobs, result := .error e }
    | .ok (some t) =>
      if t.paused then
        { genAttempts := 0, genSleeps := [], sent := [], db := st.db,
          jobs := st.jobs, result := .ok () }
      else run_pipeline max_retries maxc call send task manual st
    | .ok none => run_pipeline max_retries maxc call send task manual st

/-! ### Supporting lemmas for the retry loop -/

lemma range'_cons (s n : Nat) : List.range' s (n + 1) = s :: List.range' (s + 1) n := rfl

lemma genIter_success (call : Nat → GenCallResult) (maxr : Nat) (t : List Char) :
    ∀ (n j delay : Nat) (sleeps : List Nat) (ncalls : Nat),
      (∀ k, j ≤ k → k < j + n → ∃ m, call k = .failure true m) →
      call (j + n) = .success t →
      j + n ≤ maxr →
      genIter call maxr (List.range' j (maxr + 1 - j)) delay sleeps ncalls
        = ⟨.ok (if t.isEmpty then fallbackText else t), ncalls + n + 1,
            sleeps.reverse ++ backoffFrom delay n⟩ := by
  intro n
  induction n with
  | zero =>
    intro j delay sleeps ncalls _ hsucc hle
    have hsucc' : call j = .success t := by simpa using hsucc
    have hrange : maxr + 1 - j = (maxr - j) + 1 := by omega
    rw [hrange, range'_cons]
    simp [genIter, hsucc', backoffFrom]
  | succ n ih =>
    intro j delay sleeps ncalls hfail hsucc hle
    obtain ⟨m, hm⟩ := hfail j le_rfl (by omega)
    have hne : ¬ (j = maxr) := by omega
    have hrange : maxr + 1 - j = (maxr - j) + 1 := by omega
    rw [hrange, range'_cons]
    simp only [genIter, hm, if_neg hne]
    have hr2 : maxr + 1 - (j + 1) = maxr - j := by omega
    have hrec := ih (j + 1) (min (delay * 2) 10) (delay :: sleeps) (ncalls + 1)
      (fun k hk1 hk2 => hfail k (by omega) (by omega))
      (by rw [show j + 1 + n = j + (n + 1) from by omega]; exact hsucc)
      (by omega)
    rw [hr2] at hrec
    rw [hrec]
    simp only [GenTrace.mk.injEq, List.reverse_cons, backoffFrom]
    refine ⟨by trivial, by omega, by simp⟩

lemma genIter_all_fail (call : Nat → GenCallResult) (maxr : Nat) (m : Nat → String) :
    ∀ (n j delay : Nat) (sleeps : List Nat) (ncalls : Nat),
      (∀ k, j ≤ k → k ≤ maxr → call k = .failure true (m k)) →
      j + n = maxr →
      genIter call maxr (List.range' j (maxr + 1 - j)) delay sleeps ncalls
        = ⟨.error ⟨true, m maxr⟩, ncalls + n + 1,
            sleeps.reverse ++ backoffFrom delay n⟩ := by
  intro n
  induction n with
  | zero =>
    intro j delay sleeps ncalls hfail hj
    have hj' : j = maxr := by omega
    subst hj'
    have hcall : call j = .failure true (m j) := hfail j le_rfl le_rfl
    have hrange : j + 1 - j = 0 + 1 := by omega
    rw [hrange, range'_cons]
    simp [genIter, hcall, backoffFrom]
  | succ n ih =>
    intro j delay sleeps ncalls hfail hj
    have hcall : call j = .failure true (m j) := hfail j le_rfl (by omega)
    have hne : ¬ (j = maxr) := by omega
    have hrange : maxr + 1 - j = (maxr - j) + 1 := by omega
    rw [hrange, range'_cons]
    simp only [genIter, hcall, if_neg hne]
    have hr2 : maxr + 1 - (j + 1) = maxr - j := by omega
    have hrec := ih (j + 1) (min (delay * 2) 10) (delay :: sleeps) (ncalls + 1)
      (fun k hk1 hk2 => hfail k (by omega) hk2) (by omega)
    rw [hr2] at hrec
    rw [hrec]
    simp only [GenTrace.mk.injEq, List.reverse_cons, backoffFrom]
    refine ⟨by trivial, by omega, by simp⟩

lemma generate_html_success_at (call : Nat → GenCallResult) (maxr N : Nat)
    (t : List Char) (h1 : 1 ≤ N) (h2 : N ≤ maxr)
    (hf : ∀ k, 1 ≤ k → k < N → ∃ m, call k = .failure true m)
    (hs : call N = .success t) :
    generate_html maxr call
      = ⟨.ok (if t.isEmpty then fallbackText else t), N, backoffFrom 1 (N - 1)⟩ := by
  have hgen := genIter_success call maxr t (N - 1) 1 1 [] 0
    (fun k hk1 hk2 => hf k hk1 (by omega))
    (by rw [show 1 + (N - 1) = N from by omega]; exact hs) (by omega)
  have e1 : maxr + 1 - 1 = maxr := by omega
  rw [e1] at hgen
  unfold generate_html
  rw [hgen]
  simp only [GenTrace.mk.injEq, List.reverse_nil, List.nil_append]
  refine ⟨by trivial, by omega, by trivial⟩

lemma generate_html_all_fail (call : Nat → GenCallResult) (maxr : Nat)
    (m : Nat → String) (h1 : 1 ≤ maxr)
    (hf : ∀ k, 1 ≤ k → k ≤ maxr → call k = .failure true (m k)) :
    generate_html maxr call
      = ⟨.error ⟨true, m maxr⟩, maxr, backoffFrom 1 (maxr - 1)⟩ := by
  have hgen := genIter_all_fail call maxr m (maxr - 1) 1 1 [] 0
    (fun k hk1 hk2 => hf k hk1 hk2) (by omega)
  have e1 : maxr + 1 - 1 = maxr := by omega
  rw [e1] at hgen
  unfold generate_html
  rw [hgen]
  simp only [GenTrace.mk.injEq, List.reverse_nil, List.nil_append]
  refine ⟨by trivial, by omega, by trivial⟩

lemma genIter_fatal_at (call : Nat → GenCallResult) (maxr : Nat) (msg : String) :
    ∀ (n j delay : Nat) (sleeps : List Nat) (ncalls : Nat),
      (∀ k, j ≤ k → k < j + n → ∃ m, call k = .failure true m) →
      call (j + n) = .failure false msg →
      j + n ≤ maxr →
      genIter call maxr (List.range' j (maxr + 1 - j)) delay sleeps ncalls
        = ⟨.error ⟨false, msg⟩, ncalls + n + 1,
            sleeps.reverse ++ backoffFrom delay n⟩ := by
  intro n
  induction n with
  | zero =>
    intro j delay sleeps ncalls _ hfatal hle
    have hfatal' : call j = .failure false msg := by simpa using hfatal
    have hrange : maxr + 1 - j = (maxr - j) + 1 := by omega
    rw [hrange, range'_cons]
    simp [genIter, hfatal', backoffFrom]
  | succ n ih =>
    intro j delay sleeps ncalls hfail hfatal hle
    obtain ⟨m, hm⟩ := hfail j le_rfl (by omega)
    have hne : ¬ (j = maxr) := by omega
    have hrange : maxr + 1 - j = (maxr - j) + 1 := by omega
    rw [hrange, range'_cons]
    simp only [genIter, hm, if_neg hne]
    have hr2 : maxr + 1 - (j + 1) = maxr - j := by omega
    have hrec := ih (j + 1) (min (delay * 2) 10) (delay :: sleeps) (ncalls + 1)
      (fun k hk1 hk2 => hfail k (by omega) (by omega))
      (by rw [show j + 1 + n = j + (n + 1) from by omega]; exact hfatal)
      (by omega)
    rw [hr2] at hrec
    rw [hrec]
    simp only [GenTrace.mk.injEq, List.reverse_cons, backoffFrom]
    refine ⟨by trivial, by omega, by simp⟩

lemma generate_html_fatal_at (call : Nat → GenCallResult) (maxr N : Nat)
    (msg : String) (h1 : 1 ≤ N) (h2 : N ≤ maxr)
    (hf : ∀ k, 1 ≤ k → k < N → ∃ m, call k = .failure true m)
    (hs : call N = .failure false msg) :
    generate_html maxr call = ⟨.error ⟨false, msg⟩, N, backoffFrom 1 (N - 1)⟩ := by
  have hgen := genIter_fatal_at call maxr msg (N - 1) 1 1 [] 0
    (fun k hk1 hk2 => hf k hk1 (by omega))
    (by rw [show 1 + (N - 1) = N from by omega]; exact hs) (by omega)
  have e1 : maxr + 1 - 1 = maxr := by omega
  rw [e1] at hgen
  unfold generate_html
  rw [hgen]
  simp only [GenTrace.mk.injEq, List.reverse_nil, List.nil_append]
  refine ⟨by trivial, by omega, by trivial⟩

lemma backoffFrom_getD (k : Nat) :
    ∀ d : Nat, 1 ≤ d → d ≤ 10 →
      ∀ i < k, (backoffFrom d k).getD i 0 = min (d * 2 ^ i) 10 := by
  induction k with
  | zero => intro d _ _ i hi; exact absurd hi (by omega)
  | succ k ih =>
    intro d h1 h10 i hi
    cases i with
    | zero =>
      simp only [backoffFrom, List.getD_cons_zero, pow_zero, mul_one]
      omega
    | succ i =>
      simp only [backoffFrom, List.getD_cons_succ]
      rw [ih (min (d * 2) 10) (by omega) (by omega) i (by omega)]
      by_cases hd : d * 2 ≤ 10
      · rw [min_eq_left hd]
        congr 1
        rw [pow_succ]
        ring
      · rw [min_eq_right (by omega : (10 : Nat) ≤ d * 2)]
        have h2i : 1 ≤ 2 ^ i := Nat.one_le_two_pow
        have hl : (10 : Nat) ≤ 10 * 2 ^ i := by nlinarith
        have hr : (10 : Nat) ≤ d * 2 ^ (i + 1) := by
          have : d * 2 ≤ d * 2 ^ (i + 1) := by
            rw [pow_succ]
            nlinarith
          omega
        rw [min_eq_right hl, min_eq_right hr]

/-! ### Supporting lemmas for the pipeline -/

lemma execute_manual (maxr : Nat) (maxc : Int) (call : Nat → GenCallResult)
    (send : SendReq → SendOutcome) (task : Task) (st : SchedSt) :
    execute_task maxr maxc call send task true st
      = run_pipeline maxr maxc call send task true st := rfl

lemma run_pipeline_manual_state (maxr : Nat) (maxc : Int) (call : Nat → GenCallResult)
    (send : SendReq → SendOutcome) (task : Task) (st : SchedSt) :
    (run_pipeline maxr maxc call send task true st).db = st.db
    ∧ (run_pipeline maxr maxc call send task true st).jobs = st.jobs := by
  constructor <;> simp [run_pipeline, Bool.and_false]

lemma run_pipeline_ok_sent (maxr : Nat) (maxc : Int) (call : Nat → GenCallResult)
    (send : SendReq → SendOutcome) (task : Task) (manual : Bool) (st : SchedSt)
    (t : List Char) (n : Nat) (sl : List Nat)
    (hgen : generate_html maxr call = ⟨.ok t, n, sl⟩)
    (hsend : send { chat_id := task.chat_id, text := clamp_message t maxc truncSuffix,
                    parse_mode := some "HTML" } = .ok) :
    (run_pipeline maxr maxc call send task manual st).sent
      = [({ chat_id := task.chat_id, text := clamp_message t maxc truncSuffix,
            parse_mode := some "HTML" }, .ok)]
    ∧ (run_pipeline maxr maxc call send task manual st).genAttempts = n
    ∧ (run_pipeline maxr maxc call send task manual st).genSleeps = sl
    ∧ (run_pipeline maxr maxc call send task manual st).result = .ok () := by
  unfold run_pipeline
  rw [hgen]
  refine ⟨?_, rfl, rfl, ?_⟩
  · show (pipeline_body maxc send task.chat_id (Except.ok t)).1 = _
    simp only [pipeline_body]
    rw [hsend]
  · show (pipeline_body maxc send task.chat_id (Except.ok t)).2 = _
    simp only [pipeline_body]
    rw [hsend]

lemma run_pipeline_err_sent (maxr : Nat) (maxc : Int) (call : Nat → GenCallResult)
    (send : SendReq → SendOutcome) (task : Task) (manual : Bool) (st : SchedSt)
    (e : GenErr) (n : Nat) (sl : List Nat)
    (hgen : generate_html maxr call = ⟨.error e, n, sl⟩)
    (hsend : send { chat_id := task.chat_id,
                    text := failPrefix ++ escape_html e.msg.data,
                    parse_mode := some "HTML" } = .ok) :
    (run_pipeline maxr maxc call send task manual st).sent
      = [({ chat_id := task.chat_id, text := failPrefix ++ escape_html e.msg.data,
            parse_mode := some "HTML" }, .ok)]
    ∧ (run_pipeline maxr maxc call send task manual st).genAttempts = n
    ∧ (run_pipeline maxr maxc call send task manual st).genSleeps = sl
    ∧ (run_pipeline maxr maxc call send task manual st).result = .ok () := by
  unfold run_pipeline
  rw [hgen]
  refine ⟨?_, rfl, rfl, ?_⟩
  · show (pipeline_body maxc send task.chat_id (Except.error e)).1 = _
    simp only [pipeline_body, notify_failure]
    rw [hsend]
  · show (pipeline_body maxc send task.chat_id (Except.error e)).2 = _
    simp only [pipeline_body, notify_failure]
    rw [hsend]

lemma get_task_found_err (tid cid : Int) (db : DB)
    (h : ∃ r ∈ db.rows, r.id = tid ∧ r.chat_id = cid) :
    get_task tid cid db = .error (.typeError rowToTaskMsg) := by
  unfold get_task
  rcases hfind : db.rows.find? (rowMatch tid cid) with _ | r'
  · exfalso
    obtain ⟨r, hr, hrid, hrchat⟩ := h
    have hnone := List.find?_eq_none.mp hfind r hr
    apply hnone
    simp [rowMatch, hrid, hrchat]
  · rfl

/-! ### Claim C2 -/

/-- Claim C2 (code bug).  A trigger-driven execution of a persisted one-time
task never reaches the `finally` cleanup: the pause re-read
`get_task(task.id or 0, task.chat_id)` runs *before* the `try` and raises
`TypeError` (`_row_to_task` passes the keyword `is_reminder` that
`models.Task` lacks), so the exception propagates with zero generator calls,
zero sends, and an **unchanged** store and job set — the task is not deleted
and a later `get` raises the same `TypeError` instead of returning
not-found.  The second conjunct is the half of the claim the code does
satisfy: a manual run never deletes the task. -/
theorem C2_one_time_consumption_broken (maxr : Nat) (maxc : Int)
    (call : Nat → GenCallResult) (send : SendReq → SendOutcome)
    (task : Task) (st : SchedSt) (dt : PyDateTime) (tid : Int)
    (hrun : task.run_at = some dt) (hid : task.id = some tid)
    (hrow : ∃ r ∈ st.db.rows, r.id = tid ∧ r.chat_id = task.chat_id) :
    execute_task maxr maxc call send task false st
      = { genAttempts := 0, genSleeps := [], sent := [], db := st.db,
          jobs := st.jobs, result := .error (.typeError rowToTaskMsg) }
    ∧ ∀ (call2 : Nat → GenCallResult) (send2 : SendReq → SendOutcome),
        (execute_task maxr maxc call2 send2 task true st).db = st.db
        ∧ (execute_task maxr maxc call2 send2 task true st).jobs = st.jobs := by
  have hget : get_task (task.id.getD 0) task.chat_id st.db
      = .error (.typeError rowToTaskMsg) := by
    rw [hid, Option.getD_some]
    exact get_task_found_err tid task.chat_id st.db hrow
  constructor
  · unfold execute_task
    rw [hget]
    rfl
  · intro call2 send2
    exact run_pipeline_manual_state maxr maxc call2 send2 task st

/-- A concrete persisted one-time task, its row, and the scheduler state. -/
def dtW : PyDateTime :=
  { year := 2026, month := 6, day := 15, hour := 10, minute := 30,
    second := 0, microsecond := 0, utcoffsetMinutes := none }

/-- The stored row of the one-time task (id 5, destination 77). -/
def rowOnce : TaskRow :=
  { id := 5, chat_id := 77, prompt := "one", hour := 10, minute := 30,
    timezone := "UTC", run_at := some dtW, paused := 0, interval_minutes := none,
    name := none, days_of_week := none, is_reminder := 0 }

/-- The in-memory one-time task matching `rowOnce`. -/
def taskOnce : Task :=
  { id := some 5, chat_id := 77, prompt := "one", hour := 10, minute := 30,
    timezone := "UTC", run_at := some dtW }

/-- Scheduler state holding `rowOnce` with its job armed. -/
def stOnce : SchedSt := { db := { rows := [rowOnce], next_id := 6 }, jobs := ["task-5"] }

/-- Witness for `C2_one_time_consumption_broken` at the concrete task. -/
theorem C2_one_time_consumption_broken_witness :
    execute_task 3 4000 (fun _ => .success ("x".data)) (fun _ => .ok)
        taskOnce false stOnce
      = { genAttempts := 0, genSleeps := [], sent := [], db := stOnce.db,
          jobs := stOnce.jobs, result := .error (.typeError rowToTaskMsg) }
    ∧ (execute_task 3 4000 (fun _ => .success ("x".data)) (fun _ => .ok)
          taskOnce true stOnce).db = stOnce.db
    ∧ (execute_task 3 4000 (fun _ => .success ("x".data)) (fun _ => .ok)
          taskOnce true stOnce).jobs = stOnce.jobs := by
  have h := C2_one_time_consumption_broken 3 4000 (fun _ => .success ("x".data))
    (fun _ => .ok) taskOnce stOnce dtW 5 rfl rfl
    ⟨rowOnce, by decide, rfl, rfl⟩
  exact ⟨h.1, (h.2 _ _).1, (h.2 _ _).2⟩

/-! ### Claim C3 -/

/-- Claim C3 (code bug).  For a task whose persisted row is paused, the
trigger-driven execution does perform no generation call and no delivery,
but it does **not** return without error: the pause re-read raises
`TypeError` (the `is_reminder` slip in `_row_to_task`) before the paused
flag is ever consulted.  The second conjunct is the claim's manual half,
which the code satisfies: a manual run of the same paused task performs the
generation call and the delivery. -/
theorem C3_paused_skip_broken (maxr : Nat) (maxc : Int)
    (call : Nat → GenCallResult) (send : SendReq → SendOutcome)
    (task : Task) (st : SchedSt) (tid : Int)
    (hid : task.id = some tid)
    (hrow : ∃ r ∈ st.db.rows, r.id = tid ∧ r.chat_id = task.chat_id ∧ r.paused = 1) :
    execute_task maxr maxc call send task false st
      = { genAttempts := 0, genSleeps := [], sent := [], db := st.db,
          jobs := st.jobs, result := .error (.typeError rowToTaskMsg) }
    ∧ ∀ t : List Char, 1 ≤ maxr → call 1 = .success t → t.isEmpty = false →
        send { chat_id := task.chat_id, text := clamp_message t maxc truncSuffix,
               parse_mode := some "HTML" } = .ok →
        (execute_task maxr maxc call send task true st).genAttempts = 1
        ∧ (execute_task maxr maxc call send task true st).sent
            = [({ chat_id := task.chat_id, text := clamp_message t maxc truncSuffix,
                  parse_mode := some "HTML" }, .ok)] := by
  have hget : get_task (task.id.getD 0) task.chat_id st.db
      = .error (.typeError rowToTaskMsg) := by
    rw [hid, Option.getD_some]
    obtain ⟨r, hr, h1, h2, _⟩ := hrow
    exact get_task_found_err tid task.chat_id st.db ⟨r, hr, h1, h2⟩
  constructor
  · unfold execute_task
    rw [hget]
    rfl
  · intro t hmaxr hcall hempty hsend
    have hgen := generate_html_success_at call maxr 1 t le_rfl hmaxr
      (fun k h1 h2 => absurd h2 (by omega)) hcall
    rw [hempty] at hgen
    simp only [Bool.false_eq_true, if_false, backoffFrom] at hgen
    have hpip := run_pipeline_ok_sent maxr maxc call send task true st t 1 [] hgen hsend
    exact ⟨hpip.2.1, hpip.1⟩

/-- The paused analogue of `rowOnce` (a daily task, id 9, destination 77). -/
def rowPaused : TaskRow :=
  { id := 9, chat_id := 77, prompt := "daily", hour := 8, minute := 0,
    timezone := "UTC", run_at := none, paused := 1, interval_minutes := none,
    name := none, days_of_week := none, is_reminder := 0 }

/-- The in-memory task matching `rowPaused` (paused in the store). -/
def taskPaused : Task :=
  { id := some 9, chat_id := 77, prompt := "daily", hour := 8, minute := 0,
    timezone := "UTC", paused := true }

/-- Scheduler state holding the paused row. -/
def stPaused : SchedSt := { db := { rows := [rowPaused], next_id := 10 }, jobs := ["task-9"] }

/-- Witness for `C3_paused_skip_broken` at the concrete paused task. -/
theorem C3_paused_skip_broken_witness :
    execute_task 3 4000 (fun _ => .success ("hi".data)) (fun _ => .ok)
        taskPaused false stPaused
      = { genAttempts := 0, genSleeps := [], sent := [], db := stPaused.db,
          jobs := stPaused.jobs, result := .error (.typeError rowToTaskMsg) }
    ∧ (execute_task 3 4000 (fun _ => .success ("hi".data)) (fun _ => .ok)
          taskPaused true stPaused).genAttempts = 1
    ∧ (execute_task 3 4000 (fun _ => .success ("hi".data)) (fun _ => .ok)
          taskPaused true stPaused).sent
        = [({ chat_id := 77, text := clamp_message ("hi".data) 4000 truncSuffix,
              parse_mode := some "HTML" }, .ok)] := by
  have h := C3_paused_skip_broken 3 4000 (fun _ => .success ("hi".data))
    (fun _ => .ok) taskPaused stPaused 9 rfl
    ⟨rowPaused, by decide, rfl, rfl, rfl⟩
  have h2 := h.2 ("hi".data) (by decide) rfl (by decide) rfl
  exact ⟨h.1, h2.1, h2.2⟩

/-! ### Claim C4 -/

/-- Claim C4: the retry/backoff contract of `generate_html` and its
consequences in the pipeline.  (1) A generator failing retryably on the
first `N − 1` attempts and succeeding (with nonempty text) on attempt
`N ≤ max_retries` makes `generate_html` return that text after exactly `N`
calls, and the pipeline delivers it (clamped, HTML mode).  (2) A generator
that always fails retryably is called exactly `max_retries` times, the
sleeps between attempts are the exponential backoff sequence
`min (1·2^i) 10` (base 1 s, doubling, cap 10 s), the last error is the one
surfaced, and the pipeline sends the failure notification built from it.
(3) A non-retryable failure first occurring on attempt `N ≤ max_retries`
(after `N − 1` retryable failures) aborts on that occurrence: exactly `N`
calls are made, only the `N − 1` backoff sleeps that preceded it happen,
and the error is surfaced as-is.  The pipeline statements are for runs that
reach the `try` block (here: manual runs), since a trigger-driven run of a
stored task dies earlier in the pause re-read (see C2/C3). -/
theorem C4_retry_backoff_delivery :
    (∀ (maxr N : Nat) (maxc : Int) (call : Nat → GenCallResult)
        (send : SendReq → SendOutcome) (task : Task) (st : SchedSt) (t : List Char),
      1 ≤ N → N ≤ maxr →
      (∀ k, 1 ≤ k → k < N → ∃ m, call k = .failure true m) →
      call N = .success t → t.isEmpty = false →
      (generate_html maxr call).result = .ok t
      ∧ (generate_html maxr call).attempts = N
      ∧ (send { chat_id := task.chat_id, text := clamp_message t maxc truncSuffix,
                parse_mode := some "HTML" } = .ok →
          (execute_task maxr maxc call send task true st).sent
            = [({ chat_id := task.chat_id, text := clamp_message t maxc truncSuffix,
                  parse_mode := some "HTML" }, .ok)]))
    ∧ (∀ (maxr : Nat) (maxc : Int) (call : Nat → GenCallResult) (m : Nat → String)
        (send : SendReq → SendOutcome) (task : Task) (st : SchedSt),
      1 ≤ maxr →
      (∀ k, 1 ≤ k → k ≤ maxr → call k = .failure true (m k)) →
      generate_html maxr call
        = ⟨.error ⟨true, m maxr⟩, maxr, backoffFrom 1 (maxr - 1)⟩
      ∧ (∀ i < maxr - 1, (backoffFrom 1 (maxr - 1)).getD i 0 = min (2 ^ i) 10)
      ∧ (send { chat_id := task.chat_id,
                text := failPrefix ++ escape_html (m maxr).data,
                parse_mode := some "HTML" } = .ok →
          (execute_task maxr maxc call send task true st).sent
            = [({ chat_id := task.chat_id,
                  text := failPrefix ++ escape_html (m maxr).data,
                  parse_mode := some "HTML" }, .ok)]))
    ∧ (∀ (maxr N : Nat) (call : Nat → GenCallResult) (msg : String),
      1 ≤ N → N ≤ maxr →
      (∀ k, 1 ≤ k → k < N → ∃ m, call k = .failure true m) →
      call N = .failure false msg →
      generate_html maxr call
        = ⟨.error ⟨false, msg⟩, N, backoffFrom 1 (N - 1)⟩) := by
  refine ⟨?_, ?_, ?_⟩
  · intro maxr N maxc call send task st t h1 h2 hf hs hempty
    have hgen := generate_html_success_at call maxr N t h1 h2 hf hs
    rw [hempty] at hgen
    simp only [Bool.false_eq_true, if_false] at hgen
    refine ⟨by rw [hgen], by rw [hgen], fun hsend => ?_⟩
    exact (run_pipeline_ok_sent maxr maxc call send task true st t N _ hgen hsend).1
  · intro maxr maxc call m send task st h1 hf
    have hgen := generate_html_all_fail call maxr m h1 hf
    refine ⟨hgen, fun i hi => ?_, fun hsend => ?_⟩
    · rw [backoffFrom_getD (maxr - 1) 1 le_rfl (by omega) i hi, one_mul]
    · exact (run_pipeline_err_sent maxr maxc call send task true st
        ⟨true, m maxr⟩ maxr _ hgen hsend).1
  · intro maxr N call msg h1 h2 hf hs
    exact generate_html_fatal_at call maxr N msg h1 h2 hf hs

/-- Generator behaviour for the C4 witness: two retryable failures, then
success on the third call. -/
def callA : Nat → GenCallResult :=
  fun k => if k = 3 then .success ("hi".data) else .failure true ("rate limited " ++ toString k)

/-- Generator behaviour that always fails retryably. -/
def callB : Nat → GenCallResult := fun k => .failure true ("rate limited " ++ toString k)

/-- The message family of `callB`. -/
def mB : Nat → String := fun k => "rate limited " ++ toString k

/-- Generator behaviour with one retryable failure and then a non-retryable
failure on the second call. -/
def callC : Nat → GenCallResult :=
  fun k => if k = 1 then .failure true "rate limited 1" else .failure false "bad request"

/-- A delivery sink that accepts everything. -/
def sendOk : SendReq → SendOutcome := fun _ => .ok

/-- A plain daily task used to exercise the pipeline. -/
def task6 : Task :=
  { id := some 1, chat_id := 99, prompt := "p", hour := 8, minute := 0,
    timezone := "UTC" }

/-- An empty scheduler state. -/
def st0 : SchedSt := { db := { rows := [], next_id := 1 }, jobs := [] }

/-- Witness for `C4_retry_backoff_delivery` on the three concrete generator
behaviours. -/
theorem C4_retry_backoff_delivery_witness :
    ((generate_html 4 callA).result = .ok ("hi".data)
      ∧ (generate_html 4 callA).attempts = 3
      ∧ (execute_task 4 4000 callA sendOk task6 true st0).sent
          = [({ chat_id := 99, text := clamp_message ("hi".data) 4000 truncSuffix,
                parse_mode := some "HTML" }, .ok)])
    ∧ (generate_html 3 callB = ⟨.error ⟨true, mB 3⟩, 3, backoffFrom 1 2⟩
      ∧ (execute_task 3 4000 callB sendOk task6 true st0).sent
          = [({ chat_id := 99, text := failPrefix ++ escape_html (mB 3).data,
                parse_mode := some "HTML" }, .ok)])
    ∧ generate_html 3 callC = ⟨.error ⟨false, "bad request"⟩, 2, [1]⟩ := by
  refine ⟨?_, ?_, ?_⟩
  · have h := C4_retry_backoff_delivery.1 4 3 4000 callA sendOk task6 st0 ("hi".data)
      (by decide) (by decide)
      (fun k h1 h2 => ⟨"rate limited " ++ toString k, by
        have hk : ¬ k = 3 := by omega
        simp [callA, hk]⟩)
      (by decide) (by decide)
    exact ⟨h.1, h.2.1, h.2.2 rfl⟩
  · have h := C4_retry_backoff_delivery.2.1 3 4000 callB mB sendOk task6 st0
      (by decide) (fun k _ _ => rfl)
    exact ⟨h.1, h.2.2 rfl⟩
  · have h := C4_retry_backoff_delivery.2.2 3 2 callC "bad request"
      (by decide) (by decide)
      (fun k h1 h2 => ⟨"rate limited 1", by
        have hk : k = 1 := by omega
        subst hk
        rfl⟩)
      (by decide)
    exact h

/-! ### Claim C6 -/

/-- Claim C6, counterexample.  A concrete successful execution delivers the
generated text `"a<b"` exactly as clamped — `escape_html` of the clamped
text differs, so the escaping step the claim describes does not happen (the
source explicitly comments that the OpenAI output is Telegram-HTML and must
not be escaped). -/
theorem C6_counterexample :
    (execute_task 3 4000 (fun _ => .success ("a<b".data)) (fun _ => .ok)
        task6 true st0).sent
      = [({ chat_id := 99, text := clamp_message ("a<b".data) 4000 truncSuffix,
            parse_mode := some "HTML" }, .ok)]
    ∧ clamp_message ("a<b".data) 4000 truncSuffix = "a<b".data
    ∧ escape_html (clamp_message ("a<b".data) 4000 truncSuffix) ≠ "a<b".data := by
  refine ⟨by decide, by decide, by decide⟩

/-- Claim C6 as amended: on success the execute operation clamps the
generated text and delivers the clamped text **as-is** in HTML mode — no
escaping is applied to generated content; destination-format escaping is
applied only to the failure-notification message (prefix +
`escape_html(str(exc))`). -/
theorem C6_clamp_then_deliver_unescaped (maxr : Nat) (maxc : Int)
    (call : Nat → GenCallResult) (send : SendReq → SendOutcome)
    (task : Task) (st : SchedSt) :
    (∀ (t : List Char) (n : Nat) (sl : List Nat),
      generate_html maxr call = ⟨.ok t, n, sl⟩ →
      send { chat_id := task.chat_id, text := clamp_message t maxc truncSuffix,
             parse_mode := some "HTML" } = .ok →
      (execute_task maxr maxc call send task true st).sent
        = [({ chat_id := task.chat_id, text := clamp_message t maxc truncSuffix,
              parse_mode := some "HTML" }, .ok)])
    ∧ (∀ (e : GenErr) (n : Nat) (sl : List Nat),
      generate_html maxr call = ⟨.error e, n, sl⟩ →
      send { chat_id := task.chat_id, text := failPrefix ++ escape_html e.msg.data,
             parse_mode := some "HTML" } = .ok →
      (execute_task maxr maxc call send task true st).sent
        = [({ chat_id := task.chat_id, text := failPrefix ++ escape_html e.msg.data,
              parse_mode := some "HTML" }, .ok)]) := by
  constructor
  · intro t n sl hgen hsend
    exact (run_pipeline_ok_sent maxr maxc call send task true st t n sl hgen hsend).1
  · intro e n sl hgen hsend
    exact (run_pipeline_err_sent maxr maxc call send task true st e n sl hgen hsend).1

/-- Witness for `C6_clamp_then_deliver_unescaped` on concrete runs (success
with text `"hello"`, failure with message `"boom & <tags>"`). -/
theorem C6_clamp_then_deliver_unescaped_witness :
    (execute_task 3 4000 (fun _ => .success ("hello".data)) sendOk task6 true st0).sent
      = [({ chat_id := 99, text := clamp_message ("hello".data) 4000 truncSuffix,
            parse_mode := some "HTML" }, .ok)]
    ∧ (execute_task 3 4000 (fun _ => .failure false "boom & <tags>") sendOk
          task6 true st0).sent
        = [({ chat_id := 99,
              text := failPrefix ++ escape_html ("boom & <tags>".data),
              parse_mode := some "HTML" }, .ok)] := by
  constructor
  · exact (C6_clamp_then_deliver_unescaped 3 4000 (fun _ => .success ("hello".data))
      sendOk task6 st0).1 ("hello".data) 1 [] (by decide) rfl
  · exact (C6_clamp_then_deliver_unescaped 3 4000 (fun _ => .failure false "boom & <tags>")
      sendOk task6 st0).2 ⟨false, "boom & <tags>"⟩ 1 [] (by decide) rfl

end ScheduledBot
